import Mathlib

/-!
Verification of the aah request-routing and controller-dispatch engine
against its design specification.

The data model and operations are shallowly embedded from the repository:
the controller embedding graph and registry contents come from
`context_test.go`, the route table from the `webapp1` routes configuration,
and the response wrapper from `ahttp/response.go`.  Parts of the engine whose
bodies are not in the source tree (the dispatch context and the reverse-URL
walk) are modelled from the specification, pinned by the behaviour the
repository's own tests assert.
-/

namespace Aah

/-! ## Go type embedding graph (from the type declarations in context_test.go) -/

mutual

/-- Shallow embedding of a Go type as seen by the embedded-context walk:
the base `*Context` pointer type, non-struct types (functions, strings),
and struct types carrying an ordered field list. -/
inductive GoType where
  | ctxPtr : GoType
  | funcType : GoType
  | stringType : GoType
  | strct : GoFields → GoType

/-- An ordered list of Go struct fields: each field has a name, an
anonymous/embedded marker, and a type. -/
inductive GoFields where
  | nil : GoFields
  | cons : String → Bool → GoType → GoFields → GoFields

end

mutual

/-- Number of nodes of a Go type tree; used as a dequeue bound for the
breadth-first embedded-context walk. -/
def GoType.nodes : GoType → Nat
  | GoType.strct fields => 1 + GoFields.nodes fields
  | _ => 1

/-- Number of nodes of the types in a field list. -/
def GoFields.nodes : GoFields → Nat
  | GoFields.nil => 0
  | GoFields.cons _ _ t rest => 1 + GoType.nodes t + GoFields.nodes rest

end

/-- Index paths, in field order, of anonymous fields of type `*Context`
among one struct's fields, starting at field index `i`. -/
def embedHits (base : List Nat) : Nat → GoFields → List (List Nat)
  | _, GoFields.nil => []
  | i, GoFields.cons _ anon t rest =>
    if anon then
      match t with
      | GoType.ctxPtr => (base ++ [i]) :: embedHits base (i + 1) rest
      | _ => embedHits base (i + 1) rest
    else embedHits base (i + 1) rest

/-- Nodes to enqueue, in field order: anonymous fields that are not
`*Context`, paired with their index path, starting at field index `i`. -/
def embedEnqueues (base : List Nat) : Nat → GoFields → List (List Nat × GoType)
  | _, GoFields.nil => []
  | i, GoFields.cons _ anon t rest =>
    if anon then
      match t with
      | GoType.ctxPtr => embedEnqueues base (i + 1) rest
      | u => (base ++ [i], u) :: embedEnqueues base (i + 1) rest
    else embedEnqueues base (i + 1) rest

/-- Modelled from the spec: the body of `findEmbeddedContext` is not under
the source tree (only its test is).  Breadth-first worklist walk over the
embedding graph, by increasing depth: dequeue a node, record the index path
of every anonymous `*Context` field, enqueue every other anonymous field.
`fuel` bounds the number of dequeues; the caller supplies a bound that
exceeds the number of nodes of the (finite) type tree. -/
def findEmbeddedAux : Nat → List (List Nat × GoType) → List (List Nat) → List (List Nat)
  | _, [], acc => acc
  | 0, _, acc => acc
  | Nat.succ fuel, node :: rest, acc =>
    match node.2 with
    | GoType.strct fields =>
        findEmbeddedAux fuel (rest ++ embedEnqueues node.1 0 fields)
          (acc ++ embedHits node.1 0 fields)
    | _ => findEmbeddedAux fuel rest acc

/-- Modelled from the spec: `findEmbeddedContext` computes, for a controller
type, the ordered sequence of embedding-field index paths from the concrete
controller down to the embedded base `*Context`, by a deterministic
breadth-first walk by increasing depth.  Every node of the type tree is
dequeued at most once, so `GoType.nodes` supplies sufficient fuel. -/
def findEmbeddedContext (t : GoType) : List (List Nat) :=
  findEmbeddedAux t.nodes [([], t)] []

/-- Helper to write one embedded (anonymous) field. -/
def embedded (name : String) (t : GoType) (rest : GoFields) : GoFields :=
  GoFields.cons name true t rest

/-- Helper to write one named (non-embedded) field. -/
def named (name : String) (t : GoType) (rest : GoFields) : GoFields :=
  GoFields.cons name false t rest

/-- `Level1 struct{ *Context }` from context_test.go. -/
def level1Type : GoType := GoType.strct (embedded "Context" GoType.ctxPtr GoFields.nil)

/-- `Level2 struct{ Level1 }` from context_test.go. -/
def level2Type : GoType := GoType.strct (embedded "Level1" level1Type GoFields.nil)

/-- `Level3 struct{ Level2 }` from context_test.go. -/
def level3Type : GoType := GoType.strct (embedded "Level2" level2Type GoFields.nil)

/-- `Level4 struct{ Level3 }` from context_test.go. -/
def level4Type : GoType := GoType.strct (embedded "Level3" level3Type GoFields.nil)

/-- `Anonymous1 struct{ Name string }` from context_test.go: a plain struct
with one named (non-embedded) field. -/
def anonymous1Type : GoType := GoType.strct (named "Name" GoType.stringType GoFields.nil)

/-- `Path1 struct{ Anonymous Anonymous1; *Context }` from context_test.go:
field 0 is a named field, field 1 is the embedded `*Context`. -/
def path1Type : GoType :=
  GoType.strct (named "Anonymous" anonymous1Type
    (embedded "Context" GoType.ctxPtr GoFields.nil))

/-- `Func1 func(e *Event)` from context_test.go: a non-struct type. -/
def func1Type : GoType := GoType.funcType

/-- `Path2 struct{ Level1; Path1; Level4; Func1 }` from context_test.go:
four embedded fields reaching `*Context` through three distinct paths. -/
def path2Type : GoType :=
  GoType.strct (embedded "Level1" level1Type
    (embedded "Path1" path1Type
      (embedded "Level4" level4Type
        (embedded "Func1" func1Type GoFields.nil))))

/-! ## Dispatch context and controller/action registry -/

/-- A Go `interface\x7b\x7d` value as stored among view arguments: the nil
value, a string, or an integer. -/
inductive GoVal where
  | nil : GoVal
  | str : String → GoVal
  | int : Int → GoVal
deriving DecidableEq

/-- Action parameter metadata, from `ParameterInfo` in context_test.go
(name plus a semantic type tag). -/
structure ParameterInfo where
  Name : String
  TypeName : String := ""
deriving DecidableEq

/-- Action metadata, from `MethodInfo` in context_test.go: action name and
ordered parameter list. -/
structure MethodInfo where
  Name : String
  Parameters : List ParameterInfo := []
deriving DecidableEq

/-- Controller metadata held by the registry: controller name and the set of
callable actions registered for it. -/
structure ControllerInfo where
  Name : String
  Methods : List MethodInfo := []
deriving DecidableEq

/-- The controller registry maps a controller name to its metadata, as
populated by `AddController` in `addToCRegistry`. -/
abbrev ControllerRegistry : Type := List (String × ControllerInfo)

/-- Find a registered action by its (case-sensitive, per the spec) name. -/
def ControllerInfo.findMethod (ci : ControllerInfo) (name : String) : Option MethodInfo :=
  ci.Methods.find? (fun m => m.Name == name)

/-- Lookup of a controller by name in the registry. -/
def lookupController (reg : ControllerRegistry) (name : String) : Option ControllerInfo :=
  List.lookup name reg

/-- A route's dispatch target, from the `router.Route` fields used by
`setTarget` in context_test.go. -/
structure Route where
  Controller : String
  Action : String := ""
deriving DecidableEq

/-- Reply state carried by a dispatch context (status code and body so far);
present so that the frame conditions of `Abort` are meaningful. -/
structure Reply where
  Code : Int := 0
  body : String := ""
deriving DecidableEq

/-- Modelled from the spec: the `Context` struct of the dispatch layer is
not under the source tree (only its test is).  A per-request value holding
the request host, the resolved controller/action target, the mutable
view-argument mapping, the abort flag and the reply state. -/
structure Context where
  reqHost : String := ""
  controller : String := ""
  action : Option MethodInfo := none
  viewArgs : List (String × GoVal) := []
  abort : Bool := false
  reply : Option Reply := none
deriving DecidableEq

/-- A freshly created dispatch context (the Go zero value `Context\x7b\x7d`). -/
def newContext : Context := {}

/-- Modelled from the spec: `Abort()` sets a flag observable by the
invocation layer; it performs no I/O and touches nothing else. -/
def Context.Abort (ctx : Context) : Context :=
  { ctx with abort := true }

/-- Modelled from the spec: `AddViewArg(key, value)` stores one view
argument in the request-scoped mapping (Go map assignment). -/
def Context.AddViewArg (ctx : Context) (key : String) (value : GoVal) : Context :=
  { ctx with viewArgs := (key, value) :: ctx.viewArgs }

/-- Modelled from the spec: view-argument lookup (Go map indexing); a key
that was never added yields nothing. -/
def Context.viewArg (ctx : Context) (key : String) : Option GoVal :=
  List.lookup key ctx.viewArgs

/-- Modelled from the spec: `Reset()` returns a context to a pristine,
poolable state: it clears view arguments, the abort flag and the reply
state (the value itself remains a usable pool slot). -/
def Context.Reset (_ctx : Context) : Context := {}

/-- The single sentinel error returned by `setTarget` on resolution failure,
as asserted by TestContextSetTarget in context_test.go. -/
inductive TargetError where
  | targetNotFound : TargetError
deriving DecidableEq

/-- Alias keeping the source's name for the sentinel. -/
def errTargetNotFound : TargetError := TargetError.targetNotFound

/-- Modelled from the spec: `setTarget` resolves a route's controller and
action against the registry, storing the winning target in the context.
Both failure cases return `errTargetNotFound`, exactly as the repository's
own TestContextSetTarget asserts. -/
def setTarget (reg : ControllerRegistry) (ctx : Context) (route : Route) :
    Except TargetError Context :=
  match lookupController reg route.Controller with
  | none => Except.error errTargetNotFound
  | some ci =>
    match ci.findMethod route.Action with
    | none => Except.error errTargetNotFound
    | some m => Except.ok { ctx with controller := ci.Name, action := some m }

/-- The registry contents installed by `addToCRegistry` in context_test.go. -/
def cRegistry : ControllerRegistry :=
  [("Level1", { Name := "Level1", Methods := [{ Name := "Index", Parameters := [] }] }),
   ("Level2", { Name := "Level2", Methods := [{ Name := "Scope", Parameters := [] }] }),
   ("Level3", { Name := "Level3",
                Methods := [{ Name := "Testing",
                              Parameters := [{ Name := "userId", TypeName := "*int" }] }] }),
   ("Level4", { Name := "Level4" }),
   ("Path1", { Name := "Path1" }),
   ("Path2", { Name := "Path2" })]

/-! ## Route table and reverse URL generation -/

/-- One segment of a route path pattern: literal, named (`:x`) or
wildcard (`*x`), per the spec's segment kinds. -/
inductive Seg where
  | lit : String → Seg
  | param : String → Seg
  | wildcard : String → Seg
deriving DecidableEq

/-- Split a character list on the slash character, keeping segments in
order (empty segments included). -/
def splitOnSlashChars : List Char → List (List Char)
  | [] => [[]]
  | c :: rest =>
    let r := splitOnSlashChars rest
    if c = '/' then [] :: r
    else
      match r with
      | [] => [[c]]
      | seg :: segs => (c :: seg) :: segs

/-- Classify one non-empty path segment by its leading character. -/
def parseSeg (cs : List Char) : Seg :=
  match cs with
  | ':' :: rest => Seg.param (String.mk rest)
  | '*' :: rest => Seg.wildcard (String.mk rest)
  | _ => Seg.lit (String.mk cs)

/-- Split a path pattern on `/` and classify each non-empty segment. -/
def parsePath (p : String) : List Seg :=
  ((splitOnSlashChars p.toList).filter (fun cs => !cs.isEmpty)).map parseSeg

/-- A named route of the webapp1 domain: route name, path pattern, target
controller and action, from the routes configuration. -/
structure RouteEntry where
  name : String
  pathPattern : String
  controllerName : String
  actionName : String
deriving DecidableEq

/-- The reverse-URL failure outcomes named by the spec: unknown route name,
missing parameter, or an empty value for a required segment. -/
inductive ReverseURLError where
  | unknownRouteName : String → ReverseURLError
  | missingParameter : String → String → ReverseURLError
  | emptyParameterValue : String → String → ReverseURLError
deriving DecidableEq

/-- Modelled from the spec: positional substitution walks the pattern
segments in declaration order; each named or wildcard segment consumes the
next positional argument, failing when arguments run out or a supplied
value is empty for a required segment. -/
def substSegs (routeName : String) : List Seg → List String → Except ReverseURLError String
  | [], _ => Except.ok ""
  | Seg.lit s :: rest, args =>
    (substSegs routeName rest args).map (fun t => "/" ++ s ++ t)
  | Seg.param n :: _, [] => Except.error (ReverseURLError.missingParameter routeName n)
  | Seg.param n :: rest, v :: args =>
    if v = "" then Except.error (ReverseURLError.emptyParameterValue routeName n)
    else (substSegs routeName rest args).map (fun t => "/" ++ v ++ t)
  | Seg.wildcard n :: _, [] => Except.error (ReverseURLError.missingParameter routeName n)
  | Seg.wildcard n :: rest, v :: args =>
    if v = "" then Except.error (ReverseURLError.emptyParameterValue routeName n)
    else (substSegs routeName rest args).map (fun t => "/" ++ v ++ t)

/-- Modelled from the spec: named substitution walks the pattern segments
in declaration order; each named or wildcard segment takes its value from
the supplied name/value mapping. -/
def substSegsNamed (routeName : String) (margs : List (String × String)) :
    List Seg → Except ReverseURLError String
  | [] => Except.ok ""
  | Seg.lit s :: rest =>
    (substSegsNamed routeName margs rest).map (fun t => "/" ++ s ++ t)
  | Seg.param n :: rest =>
    match List.lookup n margs with
    | none => Except.error (ReverseURLError.missingParameter routeName n)
    | some v =>
      if v = "" then Except.error (ReverseURLError.emptyParameterValue routeName n)
      else (substSegsNamed routeName margs rest).map (fun t => "/" ++ v ++ t)
  | Seg.wildcard n :: rest =>
    match List.lookup n margs with
    | none => Except.error (ReverseURLError.missingParameter routeName n)
    | some v =>
      if v = "" then Except.error (ReverseURLError.emptyParameterValue routeName n)
      else (substSegsNamed routeName margs rest).map (fun t => "/" ++ v ++ t)

/-- Modelled from the spec: domain-level reverse URL by route name with
positional arguments; unknown route names are a `ReverseURLError`. -/
def domainReverseURL (routes : List RouteEntry) (routeName : String) (args : List String) :
    Except ReverseURLError String :=
  match routes.find? (fun r => r.name == routeName) with
  | none => Except.error (ReverseURLError.unknownRouteName routeName)
  | some r => substSegs routeName (parsePath r.pathPattern) args

/-- Modelled from the spec: domain-level reverse URL by route name with a
name/value argument mapping. -/
def domainReverseURLm (routes : List RouteEntry) (routeName : String)
    (margs : List (String × String)) : Except ReverseURLError String :=
  match routes.find? (fun r => r.name == routeName) with
  | none => Except.error (ReverseURLError.unknownRouteName routeName)
  | some r => substSegsNamed routeName margs (parsePath r.pathPattern)

/-- Modelled from the spec: `Context.ReverseURL` delegates to the owning
domain and prefixes the scheme-relative host of the current request, as
TestContextReverseURL asserts; on a `ReverseURLError` it degrades
gracefully to an empty link, never panicking and never halting. -/
def Context.ReverseURL (ctx : Context) (routes : List RouteEntry) (routeName : String)
    (args : List String) : String :=
  match domainReverseURL routes routeName args with
  | Except.ok p => "//" ++ ctx.reqHost ++ p
  | Except.error _ => ""

/-- Modelled from the spec: `Context.ReverseURLm` is the named-argument
variant of `Context.ReverseURL`. -/
def Context.ReverseURLm (ctx : Context) (routes : List RouteEntry) (routeName : String)
    (margs : List (String × String)) : String :=
  match domainReverseURLm routes routeName margs with
  | Except.ok p => "//" ++ ctx.reqHost ++ p
  | Except.error _ => ""

/-- The named HTTP routes of the `webapp1` localhost domain, from the
routes configuration file. -/
def webappRoutes : List RouteEntry :=
  [{ name := "index", pathPattern := "/", controllerName := "testSiteController", actionName := "" },
   { name := "text_get", pathPattern := "/get-text.html", controllerName := "testSiteController", actionName := "Text" },
   { name := "test_redirect", pathPattern := "/test-redirect.html", controllerName := "testSiteController", actionName := "Redirect" },
   { name := "form_submit", pathPattern := "/form-submit", controllerName := "testSiteController", actionName := "FormSubmit" },
   { name := "create_record", pathPattern := "/create-record", controllerName := "testSiteController", actionName := "CreateRecord" },
   { name := "get_xml", pathPattern := "/get-xml", controllerName := "testSiteController", actionName := "XML" },
   { name := "get_jsonp", pathPattern := "/get-jsonp", controllerName := "testSiteController", actionName := "JSONP" },
   { name := "secure_json", pathPattern := "/secure-json", controllerName := "testSiteController", actionName := "SecureJSON" },
   { name := "trigger_panic", pathPattern := "/trigger-panic", controllerName := "testSiteController", actionName := "TriggerPanic" },
   { name := "binary_bytes", pathPattern := "/binary-bytes", controllerName := "testSiteController", actionName := "BinaryBytes" },
   { name := "send_file", pathPattern := "/send-file", controllerName := "testSiteController", actionName := "SendFile" },
   { name := "hey_cookies", pathPattern := "/hey-cookies", controllerName := "testSiteController", actionName := "Cookies" },
   { name := "version_home", pathPattern := "/doc/:version", controllerName := "Doc", actionName := "VersionHome" },
   { name := "show_doc", pathPattern := "/doc/:version/*content", controllerName := "Doc", actionName := "ShowDoc" },
   { name := "get_json_oauth2", pathPattern := "/get-json-oauth2", controllerName := "testSiteController", actionName := "JSONP" }]

/-- The dispatch context of TestContextReverseURL: a request on host
`localhost:8080`. -/
def testCtx : Context := { reqHost := "localhost:8080" }

end Aah

namespace Ahttp

/-! ## Response wrapper (from ahttp/response.go) -/

/-- Model of the underlying `http.ResponseWriter` collaborator: the status
codes it has received (in order), scripted results for its `Write` and
`ReadFrom` calls (the collaborator is external, so its returned sizes and
errors are arbitrary inputs), and whether it implements `io.ReaderFrom`. -/
structure UnderWriter where
  headerCodes : List Int := []
  writeResults : List (Nat × Bool) := []
  readFromResults : List (Nat × Bool) := []
  isReaderFrom : Bool := true
deriving DecidableEq

/-- The underlying writer records a status code. -/
def UnderWriter.writeHeader (w : UnderWriter) (code : Int) : UnderWriter :=
  { w with headerCodes := w.headerCodes ++ [code] }

/-- The underlying writer consumes one scripted `Write` result: the number
of bytes it reports written and whether it also reports an error. -/
def UnderWriter.write (w : UnderWriter) (_buf : String) : UnderWriter × Nat × Bool :=
  match w.writeResults with
  | [] => (w, 0, false)
  | res :: rest => ({ w with writeResults := rest }, res.1, res.2)

/-- The underlying writer consumes one scripted `ReadFrom` result. -/
def UnderWriter.readFrom (w : UnderWriter) : UnderWriter × Nat × Bool :=
  match w.readFromResults with
  | [] => (w, 0, false)
  | res :: rest => ({ w with readFromResults := rest }, res.1, res.2)

/-- The `Response` struct of ahttp/response.go: the wrapped writer, the
recorded status code, the wrote-status flag and the byte counter (Go zero
values as defaults). -/
structure Response where
  w : UnderWriter
  code : Int := 0
  wroteStatusHeader : Bool := false
  bytesWritten : Nat := 0
deriving DecidableEq

/-- `WrapResponseWriter` from response.go: wraps an underlying writer with
all tracking state at its zero value. -/
def WrapResponseWriter (w : UnderWriter) : Response := { w := w }

/-- `Status` from response.go: the recorded code, 0 when not yet written. -/
def Response.Status (r : Response) : Int := r.code

/-- `BytesWritten` from response.go: the byte counter. -/
def Response.BytesWritten (r : Response) : Nat := r.bytesWritten

/-- `WriteHeader` from response.go: on the first call, record the code, set
the flag and forward to the underlying writer; later calls do nothing. -/
def Response.WriteHeader (r : Response) (code : Int) : Response :=
  if r.wroteStatusHeader then r
  else { r with code := code, wroteStatusHeader := true, w := r.w.writeHeader code }

/-- `Write` from response.go: forward to the underlying writer, add the
reported size to the byte counter (even when an error is also reported),
and return the underlying result. -/
def Response.Write (r : Response) (buf : String) : Response × Nat × Bool :=
  let res := r.w.write buf
  ({ r with w := res.1, bytesWritten := r.bytesWritten + res.2.1 }, res.2.1, res.2.2)

/-- `ReadFrom` from response.go: when the underlying writer implements
`io.ReaderFrom`, write status 200 if not yet written, forward, and add the
reported size to the byte counter; otherwise report size 0 and an error. -/
def Response.ReadFrom (r : Response) : Response × Nat × Bool :=
  if r.w.isReaderFrom then
    let r1 := r.WriteHeader 200
    let res := r1.w.readFrom
    ({ r1 with w := res.1, bytesWritten := r1.bytesWritten + res.2.1 }, res.2.1, res.2.2)
  else (r, 0, true)

/-- `Unwrap` from response.go: the underlying writer. -/
def Response.Unwrap (r : Response) : UnderWriter := r.w

/-- One observable operation on a response, used to state the byte-count
invariant over arbitrary call sequences. -/
inductive ROp where
  | write : String → ROp
  | readFrom : ROp
  | writeHeader : Int → ROp
deriving DecidableEq

/-- Run a sequence of operations on a response, collecting the sizes
returned by the `Write` and `ReadFrom` calls in order. -/
def runOps : Response → List ROp → Response × List Nat
  | r, [] => (r, [])
  | r, ROp.write buf :: rest =>
    let res := r.Write buf
    let k := runOps res.1 rest
    (k.1, res.2.1 :: k.2)
  | r, ROp.readFrom :: rest =>
    let res := r.ReadFrom
    let k := runOps res.1 rest
    (k.1, res.2.1 :: k.2)
  | r, ROp.writeHeader c :: rest => runOps (r.WriteHeader c) rest

end Ahttp

/-!
## Theorems

Each claim of the specification review is settled by one theorem below.
-/

namespace Aah

/-- C1: the resolution walk computes the ordered embedding-field index
paths from the concrete controller down to the embedded base `*Context`;
in particular `Path2` yields `[[0,0],[1,1],[2,0,0,0,0]]` and the four-deep
linear chain `Level4` yields `[[0,0,0,0]]` (and likewise for the other
registered controller types of the test suite). -/
theorem C1_embedded_index_paths :
    findEmbeddedContext path2Type = [[0, 0], [1, 1], [2, 0, 0, 0, 0]] ∧
    findEmbeddedContext level4Type = [[0, 0, 0, 0]] ∧
    findEmbeddedContext level1Type = [[0]] ∧
    findEmbeddedContext level2Type = [[0, 0]] ∧
    findEmbeddedContext level3Type = [[0, 0, 0]] ∧
    findEmbeddedContext path1Type = [[1]] :=
  ⟨by decide, by decide, by decide, by decide, by decide, by decide⟩

/-- C2 counterexample: resolving a route whose controller is not registered
and resolving a route whose registered controller lacks the named action
produce the very same outcome value (`errTargetNotFound`), refuting the
claim that the two failure outcomes are distinct values. -/
theorem C2_counterexample :
    setTarget cRegistry {} { Controller := "NoController", Action := "" } =
      setTarget cRegistry {} { Controller := "Level3", Action := "NoAction" } := rfl

/-- C2 amended: resolution distinguishes success from failure, but both
failure cases — unregistered controller, and registered controller without
the named action — return the single shared sentinel `errTargetNotFound`. -/
theorem C2_amended_single_sentinel (reg : ControllerRegistry) (ctx : Context) (route : Route) :
    (lookupController reg route.Controller = none →
      setTarget reg ctx route = Except.error errTargetNotFound) ∧
    (∀ ci : ControllerInfo, lookupController reg route.Controller = some ci →
      ci.findMethod route.Action = none →
      setTarget reg ctx route = Except.error errTargetNotFound) := by
  constructor
  · intro h
    simp [setTarget, h]
  · intro ci h1 h2
    simp [setTarget, h1, h2]

/-- C2 witness: the amended statement applied at the registry and the two
failing routes of TestContextSetTarget. -/
theorem C2_amended_single_sentinel_witness :
    setTarget cRegistry {} { Controller := "NoController", Action := "" } =
      Except.error errTargetNotFound ∧
    setTarget cRegistry {} { Controller := "Level3", Action := "NoAction" } =
      Except.error errTargetNotFound := by
  constructor
  · exact (C2_amended_single_sentinel cRegistry {}
      { Controller := "NoController", Action := "" }).1 rfl
  · exact (C2_amended_single_sentinel cRegistry {}
      { Controller := "Level3", Action := "NoAction" }).2
      { Name := "Level3",
        Methods := [{ Name := "Testing",
                      Parameters := [{ Name := "userId", TypeName := "*int" }] }] }
      rfl rfl

/-- C3 counterexample: `ReverseURL("version_home", "v0.1")` does not return
the bare path `/doc/v0.1`; the repository's test pins the scheme-relative
host-prefixed form. -/
theorem C3_counterexample :
    testCtx.ReverseURL webappRoutes "version_home" ["v0.1"] ≠ "/doc/v0.1" := by decide

/-- C3 amended: `ReverseURL("version_home", "v0.1")` returns
`//localhost:8080/doc/v0.1`, the current request's scheme-relative host
followed by the substituted path `/doc/v0.1`. -/
theorem C3_amended_reverse_url :
    testCtx.ReverseURL webappRoutes "version_home" ["v0.1"] =
      "//localhost:8080" ++ "/doc/v0.1" := by decide

/-- C4: named-argument reverse URL generation for `show_doc` substitutes the
named and wildcard segments in declaration order, producing a URL whose path
part is `/doc/v0.2/getting-started.html`; the order in which the named
arguments are supplied is irrelevant. -/
theorem C4_reverse_urlm_declaration_order :
    testCtx.ReverseURLm webappRoutes "show_doc"
        [("version", "v0.2"), ("content", "getting-started.html")] =
      "//localhost:8080" ++ "/doc/v0.2/getting-started.html" ∧
    testCtx.ReverseURLm webappRoutes "show_doc"
        [("content", "getting-started.html"), ("version", "v0.2")] =
      "//localhost:8080" ++ "/doc/v0.2/getting-started.html" :=
  ⟨by decide, by decide⟩

/-- C5: calling `ReverseURL("version_home")` with zero arguments for the
pattern `/doc/:version` yields a `ReverseURLError` value returned to the
caller (a missing-parameter error at the domain level), and the context
degrades gracefully to an empty link — an ordinary result, never a panic
and never fatal. -/
theorem C5_zero_args_is_reverse_url_error :
    domainReverseURL webappRoutes "version_home" [] =
      Except.error (ReverseURLError.missingParameter "version_home" "version") ∧
    testCtx.ReverseURL webappRoutes "version_home" [] = "" :=
  ⟨rfl, by decide⟩

/-- C6: a freshly created dispatch context has the abort flag cleared, and
`Abort()` sets the flag while leaving the view arguments, reply state,
resolved target and request host untouched (it is a pure state update,
performing no I/O). -/
theorem C6_abort_flag_frame :
    newContext.abort = false ∧
    ∀ ctx : Context,
      (ctx.Abort).abort = true ∧
      (ctx.Abort).viewArgs = ctx.viewArgs ∧
      (ctx.Abort).reply = ctx.reply ∧
      (ctx.Abort).controller = ctx.controller ∧
      (ctx.Abort).action = ctx.action ∧
      (ctx.Abort).reqHost = ctx.reqHost :=
  ⟨rfl, fun _ => ⟨rfl, rfl, rfl, rfl, rfl, rfl⟩⟩

/-- A context built by a sequence of `AddViewArg` calls on a fresh context. -/
def buildViewArgs (ops : List (String × GoVal)) : Context :=
  ops.foldl (fun c kv => c.AddViewArg kv.1 kv.2) newContext

/-- Adding a view argument under one key leaves lookups of other keys
unchanged. -/
theorem viewArg_addViewArg_ne (ctx : Context) (k1 k2 : String) (v : GoVal)
    (h : k2 ≠ k1) : (ctx.AddViewArg k1 v).viewArg k2 = ctx.viewArg k2 := by
  have hb : (k2 == k1) = false := beq_eq_false_iff_ne.mpr h
  simp [Context.AddViewArg, Context.viewArg, List.lookup, hb]

/-- Folding `AddViewArg` over keys that do not include `k` leaves the
lookup of `k` unchanged. -/
theorem viewArg_foldl_not_mem (ops : List (String × GoVal)) :
    ∀ (ctx : Context) (k : String), k ∉ ops.map Prod.fst →
      (ops.foldl (fun c kv => c.AddViewArg kv.1 kv.2) ctx).viewArg k = ctx.viewArg k := by
  induction ops with
  | nil => intro ctx k _; rfl
  | cons kv rest ih =>
    intro ctx k hk
    simp only [List.map_cons, List.mem_cons, not_or] at hk
    rw [List.foldl_cons, ih _ k hk.2, viewArg_addViewArg_ne ctx kv.1 k kv.2 hk.1]

/-- C7: view-argument operations obey the map get-after-put law: after
`AddViewArg(k, v)` the lookup of `k` returns `v`, and on a context built
from any sequence of additions, the lookup of a key that was never added
returns nothing. -/
theorem C7_view_args_get_after_put :
    (∀ (ctx : Context) (k : String) (v : GoVal),
      (ctx.AddViewArg k v).viewArg k = some v) ∧
    (∀ (ops : List (String × GoVal)) (k : String), k ∉ ops.map Prod.fst →
      (buildViewArgs ops).viewArg k = none) := by
  constructor
  · intro ctx k v
    simp [Context.AddViewArg, Context.viewArg, List.lookup]
  · intro ops k hk
    unfold buildViewArgs
    rw [viewArg_foldl_not_mem ops newContext k hk]
    rfl

/-- C7 witness: the law applied at the inputs of TestContextViewArgs. -/
theorem C7_view_args_get_after_put_witness :
    (newContext.AddViewArg "key1" (GoVal.str "key1 value")).viewArg "key1" =
      some (GoVal.str "key1 value") ∧
    "notexists" ∉ ([("key1", GoVal.str "key1 value")].map Prod.fst) ∧
    (buildViewArgs [("key1", GoVal.str "key1 value")]).viewArg "notexists" = none :=
  ⟨C7_view_args_get_after_put.1 newContext "key1" (GoVal.str "key1 value"),
   by decide,
   C7_view_args_get_after_put.2 [("key1", GoVal.str "key1 value")] "notexists" (by decide)⟩

/-- C8: `Reset()` restores any dispatch context to the pristine poolable
state: the view-argument mapping is cleared, the abort flag is false, the
reply state is cleared, and the result is exactly the fresh context value,
ready for reuse. -/
theorem C8_reset_pristine :
    ∀ ctx : Context,
      (ctx.Reset).viewArgs = [] ∧
      (ctx.Reset).abort = false ∧
      (ctx.Reset).reply = none ∧
      ctx.Reset = newContext :=
  fun _ => ⟨rfl, rfl, rfl, rfl⟩

end Aah

namespace Ahttp

/-- Once the status header has been written, further `WriteHeader` calls
leave the response unchanged. -/
theorem foldl_writeHeader_after_first (cs : List Int) :
    ∀ r : Response, r.wroteStatusHeader = true → cs.foldl Response.WriteHeader r = r := by
  induction cs with
  | nil => intro r _; rfl
  | cons c rest ih =>
    intro r h
    rw [List.foldl_cons]
    have hr : r.WriteHeader c = r := by
      simp [Response.WriteHeader, h]
    rw [hr]
    exact ih r h

/-- C9: the response wrapper's status write is first-call-wins: a fresh
wrapper reports status 0; after `WriteHeader(c1)` followed by any further
`WriteHeader` calls, the status is still `c1` and the underlying writer
received exactly one `WriteHeader` invocation, with `c1`. -/
theorem C9_write_header_first_call_wins (w : UnderWriter) (c1 : Int) (cs : List Int) :
    (WrapResponseWriter w).Status = 0 ∧
    (cs.foldl Response.WriteHeader ((WrapResponseWriter w).WriteHeader c1)).Status = c1 ∧
    (cs.foldl Response.WriteHeader ((WrapResponseWriter w).WriteHeader c1)).w.headerCodes =
      w.headerCodes ++ [c1] := by
  refine ⟨rfl, ?_, ?_⟩
  · rw [foldl_writeHeader_after_first cs ((WrapResponseWriter w).WriteHeader c1) rfl]
    rfl
  · rw [foldl_writeHeader_after_first cs ((WrapResponseWriter w).WriteHeader c1) rfl]
    rfl

/-- `WriteHeader` never changes the byte counter. -/
theorem writeHeader_bytes (r : Response) (c : Int) :
    (r.WriteHeader c).bytesWritten = r.bytesWritten := by
  unfold Response.WriteHeader
  split <;> rfl

/-- `Write` adds exactly the size it returns to the byte counter. -/
theorem write_bytes (r : Response) (buf : String) :
    ((r.Write buf).1).bytesWritten = r.bytesWritten + (r.Write buf).2.1 := rfl

/-- `ReadFrom` adds exactly the size it returns to the byte counter, in
both the compatible and the incompatible branch. -/
theorem readFrom_bytes (r : Response) :
    ((r.ReadFrom).1).bytesWritten = r.bytesWritten + (r.ReadFrom).2.1 := by
  unfold Response.ReadFrom
  split
  · dsimp only
    rw [writeHeader_bytes]
  · rfl

/-- Over any operation sequence, the byte counter grows by exactly the sum
of the sizes returned by the `Write` and `ReadFrom` calls. -/
theorem runOps_bytes (ops : List ROp) :
    ∀ r : Response,
      ((runOps r ops).1).bytesWritten = r.bytesWritten + ((runOps r ops).2).sum := by
  induction ops with
  | nil => intro r; simp [runOps]
  | cons op rest ih =>
    intro r
    cases op with
    | write buf =>
      simp only [runOps]
      rw [ih, write_bytes, List.sum_cons]
      omega
    | readFrom =>
      simp only [runOps]
      rw [ih, readFrom_bytes, List.sum_cons]
      omega
    | writeHeader c =>
      simp only [runOps]
      rw [ih, writeHeader_bytes]

/-- C10: `BytesWritten()` equals the sum of the sizes returned by all prior
`Write` and `ReadFrom` calls: each call adds exactly the size it returns
(even when an error is also returned), `WriteHeader` never changes the
count, and over any call sequence on a fresh wrapper the counter equals the
sum of the returned sizes. -/
theorem C10_bytes_written_invariant :
    (∀ (r : Response) (buf : String),
      ((r.Write buf).1).BytesWritten = r.BytesWritten + (r.Write buf).2.1) ∧
    (∀ r : Response,
      ((r.ReadFrom).1).BytesWritten = r.BytesWritten + (r.ReadFrom).2.1) ∧
    (∀ (r : Response) (c : Int), (r.WriteHeader c).BytesWritten = r.BytesWritten) ∧
    (∀ (w : UnderWriter) (ops : List ROp),
      ((runOps (WrapResponseWriter w) ops).1).BytesWritten =
        ((runOps (WrapResponseWriter w) ops).2).sum) := by
  refine ⟨fun r buf => write_bytes r buf, fun r => readFrom_bytes r,
    fun r c => writeHeader_bytes r c, fun w ops => ?_⟩
  have h := runOps_bytes ops (WrapResponseWriter w)
  simpa [Response.BytesWritten, WrapResponseWriter] using h

end Ahttp
